import Mathlib

/-
Verification of the BLE connection-management core of the EvenBook SDK
(`eveng1_python_sdk/connector/bluetooth.py`, class `BLEManager`).

The embedding below is a shallow model of the Python source: each method is
translated into a pure Lean function; the mutable `BLEManager`/connector
state becomes an explicit `BLE` record threaded through the functions;
outcomes of external collaborators (the BLE transport, the host device
enumeration, the pairing verifier) are supplied as oracle parameters, so a
run of a method is a function of the initial state and those oracles.
-/

namespace EvenBook

/-- Substring containment, modelling Python's `pat in s`. -/
def strContains (s pat : String) : Bool := go pat.data s.data
  where go (p : List Char) : List Char → Bool
    | [] => p.isEmpty
    | l@(_ :: rest) => p.isPrefixOf l || go p rest

/-- Uppercasing, modelling Python's `s.upper()` (ASCII names only). -/
def strUpper (s : String) : String := ⟨s.data.map Char.toUpper⟩

/-- Python truthiness of an optional string (`None` and `""` are falsy). -/
def truthy : Option String → Bool
  | none => false
  | some s => !s.isEmpty

/-- The two physical units; `side` parameters of the Python methods. -/
inductive Side
  | left
  | right
deriving DecidableEq, Repr

/-- Global connection state (`utils.constants.ConnectionState`). -/
inductive ConnState
  | disconnected
  | scanning
  | connecting
  | connected
deriving DecidableEq, Repr

/-- A transport handle (`BleakClient`); `is_connected` mirrors the attribute. -/
structure Client where
  is_connected : Bool
deriving DecidableEq, Repr

/-- The AddressStore: `connector.config` fields touched by `BLEManager`. -/
structure Config where
  left_address : Option String
  right_address : Option String
  left_name : Option String
  right_name : Option String
deriving DecidableEq, Repr

/-- Per-side connection-quality entry of `connector._connection_quality`. -/
structure Quality where
  rssi : Option Int
  errors : Nat
deriving DecidableEq, Repr

/-- The mutable state of `BLEManager` together with the connector fields it
touches: in-memory config, its persisted copy (`config.save()` target),
the global connection state (with the trace of all values written to it),
the two transport handles, and the manager-level counters. -/
structure BLE where
  cfg : Config
  saved : Config
  connState : ConnState
  trace : List ConnState
  left_client : Option Client
  right_client : Option Client
  shutting_down : Bool
  error_count : Nat
  last_error : Option String
  last_heartbeat : Option Nat
  silent_mode : Bool
  quality_left : Option Quality
  quality_right : Option Quality
deriving DecidableEq, Repr

/-- `state_manager.set_connection_state`: writes the state and records the
write in the trace. -/
def setCState (st : BLE) (v : ConnState) : BLE :=
  { st with connState := v, trace := st.trace ++ [v] }

/-- `config.save()`: persist the in-memory config. -/
def saveCfg (st : BLE) : BLE := { st with saved := st.cfg }

/-- The stored address of one side (`config.left_address` / `right_address`). -/
def addrOf (cfg : Config) : Side → Option String
  | .left => cfg.left_address
  | .right => cfg.right_address

def clientOf (st : BLE) : Side → Option Client
  | .left => st.left_client
  | .right => st.right_client

/-- `bool(client and client.is_connected)`. -/
def clientConnected : Option Client → Bool
  | some c => c.is_connected
  | none => false

/-! ## Discovery (`scan_for_glasses`) -/

/-- A host-enumerated peripheral: `{'name': …, 'address': …}` as returned by
the Windows connected-device collaborator (spec section 6: both fields
always present). -/
structure WinDev where
  name : String
  address : String
deriving DecidableEq, Repr

/-- A peripheral from the active radio scan; `name` may be absent. -/
structure Dev where
  name : Option String
  address : String
deriving DecidableEq, Repr

/-- The device lists one `scan_for_glasses` run observes. -/
structure ScanEnv where
  winDevices : List WinDev
  devices : List Dev
deriving DecidableEq, Repr

/-- STEP 1 of the scan: classification of one host-enumerated device
(bluetooth.py lines 45-60).  Accumulator: (config, left_found, right_found). -/
def classifyWin (acc : Config × Bool × Bool) (d : WinDev) : Config × Bool × Bool :=
  let (cfg, lf, rf) := acc
  if strContains (strUpper d.name) "_L_" || strContains (strUpper d.name) "LEFT" then
    ({ cfg with left_address := some d.address, left_name := some d.name }, true, rf)
  else if strContains (strUpper d.name) "_R_" || strContains (strUpper d.name) "RIGHT" then
    ({ cfg with right_address := some d.address, right_name := some d.name }, lf, true)
  else
    (cfg, lf, rf)

/-- The G1 product-name patterns (bluetooth.py line 78). -/
def g1Patterns : List String := ["_L_", "_R_", "G1", "Even", "LE-"]

/-- STEP 2 of the scan: classification of one actively-scanned device
(bluetooth.py lines 75-92).  Accumulator also carries the `g1_devices`
candidate list. -/
def classifyScan (acc : Config × Bool × Bool × List Dev) (d : Dev) :
    Config × Bool × Bool × List Dev :=
  let (cfg, lf, rf, g1) := acc
  match d.name with
  | none => (cfg, lf, rf, g1)
  | some nm =>
    if nm.isEmpty then (cfg, lf, rf, g1)
    else if g1Patterns.any (fun p => strContains nm p) then
      let g1' := g1 ++ [d]
      if !lf && (strContains nm "_L_" || strContains nm "Left") then
        ({ cfg with left_address := some d.address, left_name := some nm }, true, rf, g1')
      else if !rf && (strContains nm "_R_" || strContains nm "Right") then
        ({ cfg with right_address := some d.address, right_name := some nm }, lf, true, g1')
      else
        (cfg, lf, rf, g1')
    else
      (cfg, lf, rf, g1)

/-- Arbitrary assignment of the first leftover candidate to a missing Left
(bluetooth.py lines 99-104); returns the updated config, the flag and the
remaining candidates. -/
def assignLeft (cfg : Config) (lf : Bool) (available : List Dev) :
    Config × Bool × List Dev :=
  if !lf then
    match available with
    | a :: rest =>
      ({ cfg with left_address := some a.address, left_name := a.name }, true, rest)
    | [] => (cfg, lf, available)
  else (cfg, lf, available)

/-- Arbitrary assignment of the next leftover candidate to a missing Right
(bluetooth.py lines 106-110). -/
def assignRight (cfg : Config) (rf : Bool) (rest : List Dev) : Config × Bool :=
  if !rf then
    match rest with
    | a :: _ =>
      ({ cfg with right_address := some a.address, right_name := a.name }, true)
    | [] => (cfg, rf)
  else (cfg, rf)

/-- Arbitrary assignment of leftover candidates to missing sides
(bluetooth.py lines 95-110). -/
def assignLeftovers (cfg : Config) (lf rf : Bool) (g1 : List Dev) :
    Config × Bool × Bool :=
  if g1.length ≥ 1 && !(lf && rf) then
    let available := g1.filter fun d =>
      cfg.left_address ≠ some d.address && cfg.right_address ≠ some d.address
    let r1 := assignLeft cfg lf available
    let r2 := assignRight r1.1 rf r1.2.2
    (r2.1, r1.2.1, r2.2)
  else
    (cfg, lf, rf)

/-- The pure classification core of `scan_for_glasses`: STEP 1 over the
host-enumerated list, then (if a side is missing) STEP 2 over the scan
results followed by leftover arbitration.  Returns the updated config and
the two found flags. -/
def scanClassify (env : ScanEnv) (cfg : Config) : Config × Bool × Bool :=
  let r1 := env.winDevices.foldl classifyWin (cfg, false, false)
  if !(r1.2.1 && r1.2.2) then
    let r2 := env.devices.foldl classifyScan (r1.1, r1.2.1, r1.2.2, ([] : List Dev))
    assignLeftovers r2.1 r2.2.1 r2.2.2.1 r2.2.2.2
  else
    r1

/-- Result of a `scan_for_glasses` run. -/
structure ScanOut where
  ok : Bool
  st : BLE
deriving DecidableEq, Repr

/-- `scan_for_glasses` (bluetooth.py lines 32-132): set state Scanning,
classify, and either persist the config and succeed, or set state
Disconnected and fail (keeping any in-memory config mutations). -/
def scan_for_glasses (env : ScanEnv) (st : BLE) : ScanOut :=
  let st1 := setCState st .scanning
  let res := scanClassify env st1.cfg
  if res.2.1 && res.2.2 then
    { ok := true, st := saveCfg { st1 with cfg := res.1 } }
  else
    { ok := false, st := setCState { st1 with cfg := res.1 } .disconnected }

/-! ## LinkSession (`_connect_glass`) -/

/-- Failure classes distinguished by the diagnostics of `_connect_glass`
(bluetooth.py lines 573-584). -/
inductive ErrClass
  | notFound
  | timeout
  | inUse
  | other
deriving DecidableEq, Repr

/-- Outcome of one attempt of `_connect_glass`, as decided by the transport:
either the primary `client.connect` call returns (with the resulting
`is_connected` flag, the verification outcome, and — when verification
passed, so the client has been installed by `setattr` — whether the
subsequent `start_notifications` call returns normally, bluetooth.py lines
560-561), or the open raises with a classified error.  On a "not found"
error the code makes one fallback open (bluetooth.py lines 544-553);
`fallback = some (ic, v, n)` means that fallback call returned, `none`
means it raised too (re-raising the primary error). -/
inductive AttemptOutcome
  | opened (isConn : Bool) (verified : Bool) (notifyOk : Bool)
  | raised (c : ErrClass) (fallback : Option (Bool × Bool × Bool))
deriving DecidableEq, Repr

/-- Whether one attempt reaches the `return True` of bluetooth.py line 563:
connected, verified, and the notification subscription did not raise. -/
def attemptSucceeds : AttemptOutcome → Bool
  | .opened ic v n => ic && v && n
  | .raised c fb =>
    match c, fb with
    | .notFound, some (ic, v, n) => ic && v && n
    | _, _ => false

/-- Whether one attempt reaches the `setattr` of bluetooth.py line 560 and
so installs the (open, verified) handle on the connector — this happens
before `start_notifications`, so an attempt can install the handle and
still fail. -/
def attemptInstalls : AttemptOutcome → Bool
  | .opened ic v _ => ic && v
  | .raised c fb =>
    match c, fb with
    | .notFound, some (ic, v, _) => ic && v
    | _, _ => false

/-- Number of transport `connect` invocations one attempt performs
(the "not found" class triggers the one extra fallback open). -/
def opensOf : AttemptOutcome → Nat
  | .opened _ _ _ => 1
  | .raised c _ => if c = ErrClass.notFound then 2 else 1

/-- Aggregate observable behaviour of one `_connect_glass` run; `installs`
records whether any executed attempt reached the `setattr` installing the
handle (the installed value is never removed by later attempts of the
same run). -/
structure GlassOut where
  ok : Bool
  attempts : Nat
  opens : Nat
  sleeps : Nat
  installs : Bool
deriving DecidableEq, Repr

/-- The retry loop of `_connect_glass` (bluetooth.py lines 523-591),
`for attempt in range(N)` as a countdown with the current index `i`
explicit: stop at the first successful attempt (which has installed the
handle); after a failed attempt that is not the last (`attempt < N - 1`),
sleep the configured delay; a failed attempt may still have installed the
handle when `start_notifications` raised after the `setattr`. -/
def glassLoop (N : Nat) (out : Nat → AttemptOutcome) : Nat → Nat → GlassOut
  | _, 0 => ⟨false, 0, 0, 0, false⟩
  | i, rem + 1 =>
    let o := out i
    if attemptSucceeds o then
      ⟨true, 1, opensOf o, 0, true⟩
    else
      let s := if i < N - 1 then 1 else 0
      let r := glassLoop N out (i + 1) rem
      ⟨r.ok, r.attempts + 1, r.opens + opensOf o, r.sleeps + s,
        attemptInstalls o || r.installs⟩

/-- `_connect_glass` (bluetooth.py lines 515-595): fail immediately when the
side has no stored address, otherwise run up to `N = reconnect_attempts`
attempts. -/
def connect_glass (addr : Option String) (N : Nat) (out : Nat → AttemptOutcome) :
    GlassOut :=
  match addr with
  | none => ⟨false, 0, 0, 0, false⟩
  | some _ => glassLoop N out 0 N

/-! ## HeartbeatMonitor (`_heartbeat_loop`) -/

/-- One sequence-counter step: `seq = (seq + 1) & 0xFF`
(bluetooth.py line 471). -/
def hbNext (seq : Nat) : Nat := (seq + 1) &&& 0xFF

/-- The 6-byte heartbeat frame `bytes([0x25, 0x06, 0x00, seq, 0x04, seq])`
(bluetooth.py line 472). -/
def heartbeatFrame (seq : Nat) : List Nat := [0x25, 0x06, 0x00, seq, 0x04, seq]

/-- The sequence counter after `k` successful rounds of `_heartbeat_loop`
(it starts at 0, line 467, and each round applies `hbNext` once). -/
def hbSeqAfter : Nat → Nat
  | 0 => 0
  | k + 1 => hbNext (hbSeqAfter k)

/-- The sends of one heartbeat round starting from counter value `seq`:
the same frame goes first to the left side, then to the right side
(bluetooth.py lines 471-480). -/
def hbRoundSends (seq : Nat) : List (Side × List Nat) :=
  let s := hbNext seq
  [(Side.left, heartbeatFrame s), (Side.right, heartbeatFrame s)]

/-! ## Disconnect handler, QualityMonitor, status -/

/-- The per-side disconnect message (`f"{side.title()} glass disconnected"`). -/
def disconnectMsg : Side → String
  | .left => "Left glass disconnected"
  | .right => "Right glass disconnected"

/-- Result of a `_handle_disconnect` run: its return value, the state after
it, and how many `_connect_glass` invocations it performed. -/
structure HDOut where
  result : Bool
  st : BLE
  connectCalls : Nat
deriving DecidableEq, Repr

/-- The reconnect retry loop of `_handle_disconnect` (bluetooth.py lines
500-511); the shutdown flag is constant during the run (no other task
interleaves in the model), so the in-loop gate equals the entry gate. -/
def hdLoop (st : BLE) (side : Side) (N : Nat) (outs : Nat → Nat → AttemptOutcome) :
    Nat → Nat → Bool × Nat
  | _, 0 => (false, 0)
  | i, rem + 1 =>
    if st.shutting_down then (false, 0)
    else
      let r := connect_glass (addrOf st.cfg side) N (outs i)
      if r.ok then (true, 1)
      else
        let (b, c) := hdLoop st side N outs (i + 1) rem
        (b, c + 1)

/-- `_handle_disconnect` (bluetooth.py lines 491-513): return immediately
when shutting down; otherwise record the error and run the bounded
reconnect loop for this side only. -/
def handle_disconnect (st : BLE) (side : Side) (N : Nat)
    (outs : Nat → Nat → AttemptOutcome) : HDOut :=
  if st.shutting_down then
    ⟨false, st, 0⟩
  else
    let st1 := { st with
      error_count := st.error_count + 1
      last_error := some (disconnectMsg side) }
    let (b, c) := hdLoop st1 side N outs 0 N
    ⟨b, st1, c⟩

/-- The error-recording step of `_monitor_connection_quality` when a side's
client exists but reports not-connected (bluetooth.py lines 403-406). -/
def monitorRecordError (st : BLE) (side : Side) : BLE :=
  { st with
    error_count := st.error_count + 1
    last_error := some (disconnectMsg side) }

/-- One per-side check of `_monitor_connection_quality`. -/
def monitorCheckSide (st : BLE) (side : Side) : BLE :=
  match clientOf st side with
  | some c => if !c.is_connected then monitorRecordError st side else st
  | none => st

/-- The `_monitor_connection_quality` loop (bluetooth.py lines 391-415),
fuelled: returns the state reached and the number of loop iterations
executed; the loop head checks the shutdown flag before doing anything. -/
def monitorRun (st : BLE) : Nat → BLE × Nat
  | 0 => (st, 0)
  | fuel + 1 =>
    if st.shutting_down then (st, 0)
    else
      let st1 := monitorCheckSide (monitorCheckSide st .left) .right
      let (st2, n) := monitorRun st1 fuel
      (st2, n + 1)

/-- `_update_connection_quality` (bluetooth.py lines 438-447): ensure the
side's entry exists, optionally record rssi, optionally bump the side's
error counter. -/
def update_connection_quality (st : BLE) (side : Side) (rssi : Option Int)
    (error : Bool) : BLE :=
  let q0 := (match side with
    | .left => st.quality_left
    | .right => st.quality_right).getD ⟨none, 0⟩
  let q1 := match rssi with
    | some v => { q0 with rssi := some v }
    | none => q0
  let q2 := if error then { q1 with errors := q1.errors + 1 } else q1
  match side with
  | .left => { st with quality_left := some q2 }
  | .right => { st with quality_right := some q2 }

/-- One side's entry of the status snapshot. -/
structure SideStatus where
  connected : Bool
  errors : Nat
  last_error : Option String
deriving DecidableEq, Repr

/-- The status snapshot returned by `get_status_data`. -/
structure StatusData where
  left : SideStatus
  right : SideStatus
  heartbeat : Option Nat
  silent_mode : Bool
deriving DecidableEq, Repr

/-- `get_status_data` (bluetooth.py lines 717-734). -/
def get_status_data (st : BLE) : StatusData :=
  { left := ⟨clientConnected st.left_client, st.error_count, st.last_error⟩
    right := ⟨clientConnected st.right_client, st.error_count, st.last_error⟩
    heartbeat := st.last_heartbeat
    silent_mode := st.silent_mode }

/-! ## DualLinkCoordinator (`connect_to_glasses`, `disconnect`, `reconnect`) -/

/-- The environment one `connect_to_glasses` run observes: the pairing
verifier's outcome, device lists for the (at most two) in-run scans, the
configured attempt bound, and per-call attempt outcomes for the successive
`_connect_glass` invocations (`glassOuts k` is the attempt-outcome stream
of the `k`-th call). -/
structure ConnectEnv where
  pairingOk : Bool
  scan3 : ScanEnv
  scan4 : ScanEnv
  attempts : Nat
  glassOuts : Nat → Nat → AttemptOutcome

/-- Intermediate coordinator state: the BLE state, the two
`left_connected` / `right_connected` flags, and the index of the next
`_connect_glass` call. -/
structure CS where
  st : BLE
  l : Bool
  r : Bool
  k : Nat

/-- Store a verified, open handle for one side
(`setattr(self.connector, f"{side}_client", client)` on the success path
of `_connect_glass`). -/
def setClient (st : BLE) : Side → BLE
  | .left => { st with left_client := some ⟨true⟩ }
  | .right => { st with right_client := some ⟨true⟩ }

/-- One `_connect_glass` call made by the coordinator: run the full
per-glass model on the side's current address; the side's handle is
installed whenever some attempt reached the `setattr` — even when the run
then failed because `start_notifications` raised (bluetooth.py lines
560-561), so a returned False does not imply no handle was installed. -/
def glassCall (env : ConnectEnv) (cs : CS) (side : Side) : CS :=
  let res := connect_glass (addrOf cs.st.cfg side) env.attempts (env.glassOuts cs.k)
  { st := if res.installs then setClient cs.st side else cs.st
    l := if side = Side.left then res.ok else cs.l
    r := if side = Side.right then res.ok else cs.r
    k := cs.k + 1 }

/-- Strategy 0 (bluetooth.py lines 143-152): restore a missing address from
a saved name when the name embeds one of the two hard-coded MAC images. -/
def strategy0 (cfg : Config) : Config :=
  let cfg1 :=
    if cfg.left_address = none &&
        (match cfg.left_name with
          | some n => strContains n "CCF7207288DB"
          | none => false) then
      { cfg with left_address := some "CC:F7:20:72:88:DB" }
    else cfg
  if cfg1.right_address = none &&
      (match cfg1.right_name with
        | some n => strContains n "DAD8C8AF5258"
        | none => false) then
    { cfg1 with right_address := some "DA:D8:C8:AF:52:58" }
  else cfg1

/-- Strategy 1 (lines 154-163): if both addresses are stored, try each side
once, left then right. -/
def stage1 (env : ConnectEnv) (cs : CS) : CS :=
  if cs.st.cfg.left_address.isSome && cs.st.cfg.right_address.isSome then
    glassCall env (glassCall env cs .left) .right
  else cs

/-- Strategy 2 (lines 165-170): if both sides failed, run the pairing
verifier and, when it succeeds, retry both sides. -/
def stage2 (env : ConnectEnv) (cs : CS) : CS :=
  if !cs.l && !cs.r then
    if env.pairingOk then glassCall env (glassCall env cs .left) .right
    else cs
  else cs

/-- Clear both stored addresses (in memory). -/
def clearAddrs (st : BLE) : BLE :=
  { st with cfg := { st.cfg with left_address := none, right_address := none } }

/-- Strategy 3 (lines 172-189): if both sides still failed, clear and
persist the addresses and rescan; on scan success retry both sides, on
scan failure restore the old addresses in memory (no save). -/
def stage3 (env : ConnectEnv) (cs : CS) : CS :=
  if !cs.l && !cs.r then
    let oldL := cs.st.cfg.left_address
    let oldR := cs.st.cfg.right_address
    let sres := scan_for_glasses env.scan3 (saveCfg (clearAddrs cs.st))
    if sres.ok then
      glassCall env (glassCall env { cs with st := sres.st } .left) .right
    else
      { cs with st := { sres.st with
          cfg := { sres.st.cfg with left_address := oldL, right_address := oldR } } }
  else cs

/-- Strategy 4 preamble (lines 194-205): clear and persist the addresses
and drop whichever handle survived. -/
def stage4Pre (cs : CS) : BLE :=
  let st1 := saveCfg (clearAddrs cs.st)
  let st2 := if cs.l && st1.left_client.isSome then
      { st1 with left_client := none } else st1
  if cs.r && st2.right_client.isSome then
    { st2 with right_client := none } else st2

/-- Strategy 4 (lines 191-209): if exactly one side connected, clear and
persist the addresses, drop the surviving handle, rescan, and on scan
success retry both sides (on scan failure nothing is restored). -/
def stage4 (env : ConnectEnv) (cs : CS) : CS :=
  if cs.l != cs.r then
    let sres := scan_for_glasses env.scan4 (stage4Pre cs)
    if sres.ok then
      glassCall env (glassCall env { cs with st := sres.st } .left) .right
    else
      { cs with st := sres.st }
  else cs

/-- Result of a `connect_to_glasses` run. -/
structure CRes where
  ok : Bool
  st : BLE

/-- Final evaluation (lines 211-250): success requires both sides; otherwise
drop whichever handle did connect and set state Disconnected. -/
def finalEval (cs : CS) : CRes :=
  if cs.l && cs.r then
    { ok := true, st := setCState cs.st .connected }
  else
    let st1 := if cs.l && cs.st.left_client.isSome then
        { cs.st with left_client := none } else cs.st
    let st2 := if cs.r && st1.right_client.isSome then
        { st1 with right_client := none } else st1
    { ok := false, st := setCState st2 .disconnected }

/-- `connect_to_glasses` (bluetooth.py lines 134-255): set state Connecting,
apply strategy 0 to the config, then the strategy chain 1-4 and the final
evaluation. -/
def connect_to_glasses (st : BLE) (env : ConnectEnv) : CRes :=
  let st0 := setCState st .connecting
  let st0 := { st0 with cfg := strategy0 st0.cfg }
  finalEval (stage4 env (stage3 env (stage2 env (stage1 env ⟨st0, false, false, 0⟩))))

/-- Drop a handle at teardown: `disconnect` only closes a client that
reports connected (bluetooth.py lines 275-279). -/
def closeIfConnected : Option Client → Option Client
  | some c => if c.is_connected then none else some c
  | none => none

/-- `disconnect` (bluetooth.py lines 257-284): set the shutdown flag, stop
the monitors and the command layer, close connected handles, set state
Disconnected. -/
def disconnect (st : BLE) : BLE :=
  setCState
    { st with
      shutting_down := true
      left_client := closeIfConnected st.left_client
      right_client := closeIfConnected st.right_client }
    .disconnected

/-- `reconnect` (bluetooth.py lines 382-389): `disconnect` then
`connect_to_glasses`. -/
def reconnect (st : BLE) (env : ConnectEnv) : CRes :=
  connect_to_glasses (disconnect st) env

/-- `BLEManager.__init__` (bluetooth.py lines 20-30) together with the
connector fields: no clients, no errors, not shutting down. -/
def initBLE (cfg : Config) : BLE :=
  { cfg := cfg
    saved := cfg
    connState := .disconnected
    trace := []
    left_client := none
    right_client := none
    shutting_down := false
    error_count := 0
    last_error := none
    last_heartbeat := none
    silent_mode := false
    quality_left := none
    quality_right := none }

/-! ## Transition traces -/

/-- Consecutive transition pairs of a run: the initial state followed by the
successive values written to the global connection state. -/
def stepsOf : ConnState → List ConnState → List (ConnState × ConnState)
  | _, [] => []
  | p, x :: xs => (p, x) :: stepsOf x xs

/-- The transition relation asserted by the spec: the forward chain
Disconnected → Scanning → Connecting → Connected plus a transition from any
state back to Disconnected. -/
def specAllowed (a b : ConnState) : Bool :=
  (a == .disconnected && b == .scanning) || (a == .scanning && b == .connecting) ||
    (a == .connecting && b == .connected) || b == .disconnected

/-- The transition relation the code actually follows: the spec relation
plus stutter steps, Disconnected → Connecting (direct connect with saved
addresses, no scan), Connecting → Scanning (strategies 3/4 re-enter the
scanner), Scanning → Connected (success straight after an in-connect
rescan), and Connected → Connecting / Connected → Scanning (the writes at
bluetooth.py lines 139 and 35 are unguarded, so the operations re-enter
the machine when invoked while Connected).  The one pair still absent is
a direct Disconnected → Connected. -/
def codeAllowed (a b : ConnState) : Bool :=
  a == b || specAllowed a b || (a == .disconnected && b == .connecting) ||
    (a == .connecting && b == .scanning) || (a == .scanning && b == .connected) ||
    (a == .connected && b == .connecting) || (a == .connected && b == .scanning)

/-- All steps of a trace satisfy `codeAllowed`. -/
def okTrace : ConnState → List ConnState → Bool
  | _, [] => true
  | p, x :: xs => codeAllowed p x && okTrace x xs

/-- The last state of a run: the last write, or the initial state if none. -/
def lastOf (s : ConnState) (t : List ConnState) : ConnState := t.getLastD s

/-! ## Invariants used in the coordinator proofs -/

def cfgNone : Config := ⟨none, none, none, none⟩

def cfgAB : Config := ⟨some "A", some "B", none, none⟩

/-- An empty radio environment: no host-enumerated and no scanned devices. -/
def emptyScan : ScanEnv := ⟨[], []⟩

/-- A scan environment with two peripherals whose names both contain
`"_L_"`. -/
def envLL : ScanEnv := ⟨[], [⟨some "G1_L_A", "addr1"⟩, ⟨some "G1_L_B", "addr2"⟩]⟩

/-- A scan environment resolving both sides from host-enumerated devices. -/
def envLR : ScanEnv := ⟨[⟨"G1_L_X", "AL"⟩, ⟨"G1_R_X", "AR"⟩], []⟩

/-- Connect environment: every transport attempt succeeds at once. -/
def envOK : ConnectEnv := ⟨false, emptyScan, emptyScan, 1, fun _ _ => .opened true true true⟩

/-- Connect environment: only the very first `_connect_glass` call (left,
strategy 1) succeeds; every later call fails; rescans find nothing. -/
def envS4 : ConnectEnv :=
  ⟨false, emptyScan, emptyScan, 1,
    fun k _ => if k = 0 then .opened true true true else .opened false false false⟩

/-- Connect environment: strategies 1 and 2 fail, the strategy-3 scan
resolves both sides and the subsequent connect attempts succeed. -/
def envC2 : ConnectEnv :=
  ⟨true, envLR, emptyScan, 1,
    fun k _ => if 4 ≤ k then .opened true true true else .opened false false false⟩

/-- Connect environment: every transport attempt fails and rescans find
nothing. -/
def envAllFail : ConnectEnv :=
  ⟨false, emptyScan, emptyScan, 1, fun _ _ => .opened false false false⟩

/-- The idle manager state right after a successful standalone scan. -/
def stScan : BLE := { initBLE cfgAB with connState := .scanning }

/-- A manager state with the shutdown flag set. -/
def stShut : BLE := { initBLE cfgNone with shutting_down := true }

/-- A state where the left handle reports not-connected and the right one
is healthy. -/
def stQuiet : BLE :=
  { initBLE cfgAB with left_client := some ⟨false⟩, right_client := some ⟨true⟩ }

/-! # Theorems -/

/-! ## Heartbeat (C3) -/

theorem hbNext_mod (n : Nat) : hbNext n = (n + 1) % 256 := by
  have h := Nat.and_pow_two_sub_one_eq_mod (n + 1) 8
  norm_num at h
  simpa [hbNext] using h

/-- C3: in `_heartbeat_loop` the shared 8-bit counter starts at 0 and is
incremented exactly once per round wrapping modulo 256, so after `k`
successful rounds it equals `k mod 256`; a round starting from counter `q`
builds the frame `[0x25, 0x06, 0x00, s, 0x04, s]` with `s` the incremented
counter sitting at positions 3 and 5, and sends that identical frame first
to the left side and then to the right side. -/
theorem heartbeat_seq_and_frame :
    (∀ k, hbSeqAfter k = k % 256) ∧
    (∀ q, hbRoundSends q =
      [(Side.left, heartbeatFrame (hbNext q)), (Side.right, heartbeatFrame (hbNext q))]) ∧
    (∀ s, (heartbeatFrame s)[3]? = some s ∧ (heartbeatFrame s)[5]? = some s ∧
      (heartbeatFrame s).length = 6 ∧
      heartbeatFrame s = [0x25, 0x06, 0x00, s, 0x04, s]) := by
  refine ⟨?_, fun q => rfl, fun s => ⟨rfl, rfl, rfl, rfl⟩⟩
  intro k
  induction k with
  | zero => rfl
  | succ n ih =>
    show hbNext (hbSeqAfter n) = (n + 1) % 256
    rw [ih, hbNext_mod, Nat.add_mod n 1 256]

/-! ## Disconnect handler under shutdown (C7) -/

/-- C7: `_handle_disconnect` invoked while the shutdown flag is true returns
false immediately, leaves the state untouched, and performs zero
`_connect_glass` invocations. -/
theorem handle_disconnect_shutdown (st : BLE) (side : Side) (N : Nat)
    (outs : Nat → Nat → AttemptOutcome) (h : st.shutting_down = true) :
    handle_disconnect st side N outs = ⟨false, st, 0⟩ := by
  simp [handle_disconnect, h]

theorem handle_disconnect_shutdown_witness :
    handle_disconnect stShut Side.left 3 (fun _ _ => .opened false false false) =
      ⟨false, stShut, 0⟩ :=
  handle_disconnect_shutdown stShut Side.left 3
    (fun _ _ => .opened false false false) rfl

/-! ## Per-glass retry policy (C8) -/

theorem glassLoop_attempts_le (N : Nat) (out : Nat → AttemptOutcome) :
    ∀ rem i, (glassLoop N out i rem).attempts ≤ rem := by
  intro rem
  induction rem with
  | zero => intro i; simp [glassLoop]
  | succ n ih =>
    intro i
    simp only [glassLoop]
    split
    · simp
    · simpa using ih (i + 1)

theorem glassLoop_attempts_pos (N : Nat) (out : Nat → AttemptOutcome)
    (i rem : Nat) (h : 1 ≤ rem) : 1 ≤ (glassLoop N out i rem).attempts := by
  match rem, h with
  | n + 1, _ =>
    simp only [glassLoop]
    split
    · simp
    · simp

theorem glassLoop_sleeps (N : Nat) (out : Nat → AttemptOutcome) :
    ∀ rem i, i + rem = N → 1 ≤ rem →
      (glassLoop N out i rem).sleeps + 1 = (glassLoop N out i rem).attempts := by
  intro rem
  induction rem with
  | zero => omega
  | succ n ih =>
    intro i hiN _
    simp only [glassLoop]
    split
    · simp
    · rcases Nat.eq_zero_or_pos n with hn | hn
      · subst hn
        have hguard : ¬ i < N - 1 := by omega
        simp [glassLoop, hguard]
      · have hguard : i < N - 1 := by omega
        have hrec := ih (i + 1) (by omega) hn
        simp only [hguard, if_pos]
        omega

theorem glassLoop_congr (N : Nat) (out1 out2 : Nat → AttemptOutcome)
    (h : ∀ j, attemptSucceeds (out1 j) = attemptSucceeds (out2 j)) :
    ∀ rem i, (glassLoop N out1 i rem).ok = (glassLoop N out2 i rem).ok ∧
      (glassLoop N out1 i rem).attempts = (glassLoop N out2 i rem).attempts ∧
      (glassLoop N out1 i rem).sleeps = (glassLoop N out2 i rem).sleeps := by
  intro rem
  induction rem with
  | zero => intro i; simp [glassLoop]
  | succ n ih =>
    intro i
    simp only [glassLoop, h i]
    split
    · simp
    · have := ih (i + 1)
      simp [this.1, this.2.1, this.2.2]

/-- C8: `_connect_glass` with no stored address for the side returns false
immediately, making no transport open and no retry; with a stored address
it performs at most `N = reconnect_attempts` attempts, sleeping the
configured delay exactly between consecutive attempts (one fewer sleep
than attempts made), and the per-attempt failure classification never
changes the retry behaviour: two runs whose attempts succeed and fail in
the same pattern agree on outcome, attempts made and sleeps. -/
theorem connect_glass_retry_policy :
    (∀ N out, connect_glass none N out = ⟨false, 0, 0, 0, false⟩) ∧
    (∀ a N out, (connect_glass (some a) N out).attempts ≤ N) ∧
    (∀ a N out, 1 ≤ N →
      (connect_glass (some a) N out).sleeps + 1 = (connect_glass (some a) N out).attempts) ∧
    (∀ a N out1 out2, (∀ j, attemptSucceeds (out1 j) = attemptSucceeds (out2 j)) →
      (connect_glass (some a) N out1).ok = (connect_glass (some a) N out2).ok ∧
      (connect_glass (some a) N out1).attempts = (connect_glass (some a) N out2).attempts ∧
      (connect_glass (some a) N out1).sleeps = (connect_glass (some a) N out2).sleeps) := by
  refine ⟨fun N out => rfl, ?_, ?_, ?_⟩
  · intro a N out
    exact glassLoop_attempts_le N out N 0
  · intro a N out hN
    exact glassLoop_sleeps N out N 0 (by omega) hN
  · intro a N out1 out2 h
    exact glassLoop_congr N out1 out2 h N 0

theorem connect_glass_retry_policy_witness :
    connect_glass none 3 (fun _ => .opened false false false) = ⟨false, 0, 0, 0, false⟩ ∧
    (connect_glass (some "A") 3 (fun _ => .opened false false false)).attempts ≤ 3 ∧
    (connect_glass (some "A") 3 (fun _ => .opened false false false)).sleeps + 1 =
      (connect_glass (some "A") 3 (fun _ => .opened false false false)).attempts ∧
    (connect_glass (some "A") 3 (fun _ => .raised .timeout none)).ok =
      (connect_glass (some "A") 3 (fun _ => .raised .inUse none)).ok :=
  ⟨connect_glass_retry_policy.1 3 (fun _ => .opened false false false),
   connect_glass_retry_policy.2.1 "A" 3 (fun _ => .opened false false false),
   connect_glass_retry_policy.2.2.1 "A" 3 (fun _ => .opened false false false) (by omega),
   (connect_glass_retry_policy.2.2.2 "A" 3 (fun _ => .raised .timeout none)
     (fun _ => .raised .inUse none) (fun j => rfl)).1⟩

/-! ## Discovery classification (C4) -/

/-- C4 counterexample: with two scanned peripherals both named with
`"_L_"` (`G1_L_A` at `addr1`, `G1_L_B` at `addr2`), the first is
classified Left and the second — although its name contains `"_L_"` — is
assigned to the Right side by the leftover-arbitration step of
`scan_for_glasses`. -/
theorem scan_assigns_L_device_to_right :
    strContains "G1_L_B" "_L_" = true ∧
    (scan_for_glasses envLL (initBLE cfgNone)).st.cfg.left_address = some "addr1" ∧
    (scan_for_glasses envLL (initBLE cfgNone)).st.cfg.right_address = some "addr2" ∧
    (scan_for_glasses envLL (initBLE cfgNone)).st.cfg.right_name = some "G1_L_B" :=
  ⟨by decide, by decide, by decide, by decide⟩

theorem any_pattern_of_L (nm : String) (h : strContains nm "_L_" = true) :
    g1Patterns.any (fun p => strContains nm p) = true := by
  simp [g1Patterns, List.any, h]

theorem assignLeft_left (cfg : Config) (lf : Bool) (av : List Dev) :
    (assignLeft cfg lf av).1.left_address = cfg.left_address ∨
      ∃ d ∈ av, (assignLeft cfg lf av).1.left_address = some d.address := by
  cases av with
  | nil => cases lf <;> simp [assignLeft]
  | cons a rest =>
    cases lf with
    | false => exact Or.inr ⟨a, List.mem_cons_self a rest, by simp [assignLeft]⟩
    | true => simp [assignLeft]

theorem assignLeft_right (cfg : Config) (lf : Bool) (av : List Dev) :
    (assignLeft cfg lf av).1.right_address = cfg.right_address ∧
    (assignLeft cfg lf av).1.right_name = cfg.right_name := by
  cases av <;> cases lf <;> simp [assignLeft]

theorem assignLeft_rest (cfg : Config) (lf : Bool) (av : List Dev) :
    ∀ d ∈ (assignLeft cfg lf av).2.2, d ∈ av := by
  cases av with
  | nil => cases lf <;> simp [assignLeft]
  | cons a rest =>
    cases lf with
    | false =>
      intro d hd
      simp only [assignLeft, Bool.not_false, if_pos] at hd
      exact List.mem_cons_of_mem a hd
    | true => simp [assignLeft]

theorem assignRight_right (cfg : Config) (rf : Bool) (rest : List Dev) :
    (assignRight cfg rf rest).1.right_address = cfg.right_address ∨
      ∃ d ∈ rest, (assignRight cfg rf rest).1.right_address = some d.address := by
  cases rest with
  | nil => cases rf <;> simp [assignRight]
  | cons a r =>
    cases rf with
    | false => exact Or.inr ⟨a, List.mem_cons_self a r, by simp [assignRight]⟩
    | true => simp [assignRight]

theorem assignRight_left (cfg : Config) (rf : Bool) (rest : List Dev) :
    (assignRight cfg rf rest).1.left_address = cfg.left_address ∧
    (assignRight cfg rf rest).1.left_name = cfg.left_name := by
  cases rest <;> cases rf <;> simp [assignRight]

/-- C4 amended: the name-based classification obeys the claim — a
host-enumerated device whose uppercased name contains `"_L_"` never
touches the Right assignment; a scanned device whose name contains
`"_L_"` and matches neither `"_R_"` nor `"Right"` never touches the Right
assignment; while Left is unresolved, a non-empty `"_L_"` name is
assigned to Left; unnamed, empty-named and pattern-less devices are never
assigned at all — but the leftover-arbitration step may assign any
candidate-pool device (including an `"_L_"`-named one, as the
counterexample shows) to a still-missing side. -/
theorem scan_classification_rules :
    (∀ (acc : Config × Bool × Bool) (w : WinDev),
      strContains (strUpper w.name) "_L_" = true →
      (classifyWin acc w).1.right_address = acc.1.right_address ∧
      (classifyWin acc w).1.right_name = acc.1.right_name ∧
      (classifyWin acc w).2.2 = acc.2.2) ∧
    (∀ (acc : Config × Bool × Bool × List Dev) (d : Dev) (nm : String),
      d.name = some nm → strContains nm "_L_" = true →
      strContains nm "_R_" = false → strContains nm "Right" = false →
      (classifyScan acc d).1.right_address = acc.1.right_address ∧
      (classifyScan acc d).1.right_name = acc.1.right_name ∧
      (classifyScan acc d).2.2.1 = acc.2.2.1) ∧
    (∀ (acc : Config × Bool × Bool × List Dev) (d : Dev) (nm : String),
      d.name = some nm → nm.isEmpty = false → acc.2.1 = false →
      strContains nm "_L_" = true →
      (classifyScan acc d).1.left_address = some d.address ∧
      (classifyScan acc d).2.1 = true) ∧
    (∀ (acc : Config × Bool × Bool × List Dev) (d : Dev),
      d.name = none → classifyScan acc d = acc) ∧
    (∀ (acc : Config × Bool × Bool × List Dev) (d : Dev),
      d.name = some "" → classifyScan acc d = acc) ∧
    (∀ (acc : Config × Bool × Bool × List Dev) (d : Dev) (nm : String),
      d.name = some nm → g1Patterns.any (fun p => strContains nm p) = false →
      classifyScan acc d = acc) ∧
    (∀ (cfg : Config) (lf rf : Bool) (g1 : List Dev),
      ((assignLeftovers cfg lf rf g1).1.left_address = cfg.left_address ∨
        ∃ d ∈ g1, (assignLeftovers cfg lf rf g1).1.left_address = some d.address) ∧
      ((assignLeftovers cfg lf rf g1).1.right_address = cfg.right_address ∨
        ∃ d ∈ g1, (assignLeftovers cfg lf rf g1).1.right_address = some d.address)) := by
  refine ⟨?_, ?_, ?_, ?_, ?_, ?_, ?_⟩
  · rintro ⟨cfg, lf, rf⟩ w h
    simp [classifyWin, h]
  · rintro ⟨cfg, lf, rf, g1⟩ d nm hn hL hR hRight
    by_cases hEmpty : nm.isEmpty
    · simp [classifyScan, hn, hEmpty]
    · cases lf <;> cases rf <;>
        simp [classifyScan, hn, hEmpty, any_pattern_of_L nm hL, hR, hRight] <;>
        (try (split <;> simp))
  · rintro ⟨cfg, lf, rf, g1⟩ d nm hn hEmpty hlf hL
    simp only at hlf
    simp [classifyScan, hn, hEmpty, any_pattern_of_L nm hL, hlf, hL]
  · rintro ⟨cfg, lf, rf, g1⟩ d hn
    simp [classifyScan, hn]
  · rintro ⟨cfg, lf, rf, g1⟩ d hn
    have hE : ("" : String).isEmpty = true := rfl
    simp [classifyScan, hn, hE]
  · rintro ⟨cfg, lf, rf, g1⟩ d nm hn hNo
    by_cases hEmpty : nm.isEmpty
    · simp [classifyScan, hn, hEmpty]
    · simp [classifyScan, hn, hEmpty, hNo]
  · intro cfg lf rf g1
    simp only [assignLeftovers]
    split
    case isFalse => exact ⟨Or.inl rfl, Or.inl rfl⟩
    case isTrue =>
      constructor
      · rcases assignLeft_left cfg lf (g1.filter fun d =>
            cfg.left_address ≠ some d.address && cfg.right_address ≠ some d.address)
          with h | ⟨d, hd, h⟩
        · exact Or.inl (((assignRight_left _ rf _).1).trans h)
        · exact Or.inr ⟨d, List.mem_of_mem_filter hd,
            ((assignRight_left _ rf _).1).trans h⟩
      · rcases assignRight_right (assignLeft cfg lf (g1.filter fun d =>
            cfg.left_address ≠ some d.address && cfg.right_address ≠ some d.address)).1
            rf (assignLeft cfg lf (g1.filter fun d =>
            cfg.left_address ≠ some d.address && cfg.right_address ≠ some d.address)).2.2
          with h | ⟨d, hd, h⟩
        · exact Or.inl (h.trans (assignLeft_right cfg lf _).1)
        · exact Or.inr ⟨d, List.mem_of_mem_filter (assignLeft_rest cfg lf _ d hd), h⟩

theorem scan_classification_rules_witness :
    (classifyWin (cfgNone, false, false) ⟨"G1_L_X", "AL"⟩).1.right_address = none ∧
    (classifyScan (cfgNone, false, false, []) ⟨some "G1_L_A", "addr1"⟩).1.left_address =
      some "addr1" ∧
    classifyScan (cfgNone, false, false, []) ⟨none, "addrX"⟩ = (cfgNone, false, false, []) ∧
    (assignLeftovers cfgNone false false [] ).1.left_address = none :=
  ⟨(scan_classification_rules.1 (cfgNone, false, false) ⟨"G1_L_X", "AL"⟩ (by decide)).1,
   (scan_classification_rules.2.2.1 (cfgNone, false, false, []) ⟨some "G1_L_A", "addr1"⟩
     "G1_L_A" rfl (by decide) rfl (by decide)).1,
   scan_classification_rules.2.2.2.1 (cfgNone, false, false, []) ⟨none, "addrX"⟩ rfl,
   ((scan_classification_rules.2.2.2.2.2.2 cfgNone false false []).1).resolve_right
     (by rintro ⟨d, hd, -⟩; exact absurd hd (List.not_mem_nil d))⟩

/-! ## Scan contract (C5) -/

theorem classifyWin_resolved (acc : Config × Bool × Bool) (w : WinDev)
    (hL : acc.2.1 = true → acc.1.left_address.isSome = true)
    (hR : acc.2.2 = true → acc.1.right_address.isSome = true) :
    ((classifyWin acc w).2.1 = true → (classifyWin acc w).1.left_address.isSome = true) ∧
    ((classifyWin acc w).2.2 = true → (classifyWin acc w).1.right_address.isSome = true) := by
  obtain ⟨cfg, lf, rf⟩ := acc
  simp only at hL hR
  by_cases h1 : (strContains (strUpper w.name) "_L_" ||
      strContains (strUpper w.name) "LEFT") = true
  · constructor
    · intro _; simp [classifyWin, h1]
    · intro h
      simp only [classifyWin, h1, if_true] at h ⊢
      exact hR h
  · by_cases h2 : (strContains (strUpper w.name) "_R_" ||
        strContains (strUpper w.name) "RIGHT") = true
    · constructor
      · intro h
        simp only [classifyWin, h1, h2, if_true, if_false] at h ⊢
        exact hL h
      · intro _; simp [classifyWin, h1, h2]
    · constructor
      · intro h
        simp only [classifyWin, h1, h2, if_false] at h ⊢
        exact hL h
      · intro h
        simp only [classifyWin, h1, h2, if_false] at h ⊢
        exact hR h

theorem foldWin_resolved (l : List WinDev) (acc : Config × Bool × Bool)
    (hL : acc.2.1 = true → acc.1.left_address.isSome = true)
    (hR : acc.2.2 = true → acc.1.right_address.isSome = true) :
    ((l.foldl classifyWin acc).2.1 = true →
      (l.foldl classifyWin acc).1.left_address.isSome = true) ∧
    ((l.foldl classifyWin acc).2.2 = true →
      (l.foldl classifyWin acc).1.right_address.isSome = true) := by
  induction l generalizing acc with
  | nil => exact ⟨hL, hR⟩
  | cons w ws ih =>
    have h := classifyWin_resolved acc w hL hR
    exact ih (classifyWin acc w) h.1 h.2

theorem classifyScan_resolved (acc : Config × Bool × Bool × List Dev) (d : Dev)
    (hL : acc.2.1 = true → acc.1.left_address.isSome = true)
    (hR : acc.2.2.1 = true → acc.1.right_address.isSome = true) :
    ((classifyScan acc d).2.1 = true → (classifyScan acc d).1.left_address.isSome = true) ∧
    ((classifyScan acc d).2.2.1 = true → (classifyScan acc d).1.right_address.isSome = true) := by
  obtain ⟨cfg, lf, rf, g1⟩ := acc
  simp only at hL hR
  cases hn : d.name with
  | none => simpa [classifyScan, hn] using ⟨hL, hR⟩
  | some nm =>
    by_cases hE : nm.isEmpty = true
    · simpa [classifyScan, hn, hE] using ⟨hL, hR⟩
    · by_cases hP : (g1Patterns.any fun p => strContains nm p) = true
      · by_cases hA : (!lf && (strContains nm "_L_" || strContains nm "Left")) = true
        · constructor
          · intro _; simp [classifyScan, hn, hE, hP, hA]
          · intro h
            simp only [classifyScan, hn, hE, hP, hA, if_true, if_false] at h ⊢
            exact hR h
        · by_cases hB : (!rf && (strContains nm "_R_" || strContains nm "Right")) = true
          · constructor
            · intro h
              simp only [classifyScan, hn, hE, hP, hA, hB, if_true, if_false] at h ⊢
              exact hL h
            · intro _; simp [classifyScan, hn, hE, hP, hA, hB]
          · constructor
            · intro h
              simp only [classifyScan, hn, hE, hP, hA, hB, if_true, if_false] at h ⊢
              exact hL h
            · intro h
              simp only [classifyScan, hn, hE, hP, hA, hB, if_true, if_false] at h ⊢
              exact hR h
      · simpa [classifyScan, hn, hE, hP] using ⟨hL, hR⟩

theorem foldScan_resolved (l : List Dev) (acc : Config × Bool × Bool × List Dev)
    (hL : acc.2.1 = true → acc.1.left_address.isSome = true)
    (hR : acc.2.2.1 = true → acc.1.right_address.isSome = true) :
    ((l.foldl classifyScan acc).2.1 = true →
      (l.foldl classifyScan acc).1.left_address.isSome = true) ∧
    ((l.foldl classifyScan acc).2.2.1 = true →
      (l.foldl classifyScan acc).1.right_address.isSome = true) := by
  induction l generalizing acc with
  | nil => exact ⟨hL, hR⟩
  | cons d ds ih =>
    have h := classifyScan_resolved acc d hL hR
    exact ih (classifyScan acc d) h.1 h.2

theorem assignLeft_resolved (cfg : Config) (lf : Bool) (av : List Dev)
    (hL : lf = true → cfg.left_address.isSome = true) :
    (assignLeft cfg lf av).2.1 = true →
      (assignLeft cfg lf av).1.left_address.isSome = true := by
  cases av <;> cases lf <;> simp [assignLeft] <;> simp_all

theorem assignRight_resolved (cfg : Config) (rf : Bool) (rest : List Dev)
    (hR : rf = true → cfg.right_address.isSome = true) :
    (assignRight cfg rf rest).2 = true →
      (assignRight cfg rf rest).1.right_address.isSome = true := by
  cases rest <;> cases rf <;> simp [assignRight] <;> simp_all

theorem assignLeft_flag (cfg : Config) (lf : Bool) (av : List Dev) (h : lf = true) :
    (assignLeft cfg lf av).2.1 = true := by
  subst h; simp [assignLeft]

theorem assignRight_flag (cfg : Config) (rf : Bool) (rest : List Dev) (h : rf = true) :
    (assignRight cfg rf rest).2 = true := by
  subst h; simp [assignRight]

theorem assignLeftovers_resolved (cfg : Config) (lf rf : Bool) (g1 : List Dev)
    (hL : lf = true → cfg.left_address.isSome = true)
    (hR : rf = true → cfg.right_address.isSome = true) :
    ((assignLeftovers cfg lf rf g1).2.1 = true →
      (assignLeftovers cfg lf rf g1).1.left_address.isSome = true) ∧
    ((assignLeftovers cfg lf rf g1).2.2 = true →
      (assignLeftovers cfg lf rf g1).1.right_address.isSome = true) := by
  unfold assignLeftovers
  split
  · set av := g1.filter (fun d =>
      cfg.left_address ≠ some d.address && cfg.right_address ≠ some d.address) with hav
    constructor
    · intro hf
      show (assignRight (assignLeft cfg lf av).1 rf
        (assignLeft cfg lf av).2.2).1.left_address.isSome = true
      rw [(assignRight_left (assignLeft cfg lf av).1 rf (assignLeft cfg lf av).2.2).1]
      exact assignLeft_resolved cfg lf av hL hf
    · intro hf
      show (assignRight (assignLeft cfg lf av).1 rf
        (assignLeft cfg lf av).2.2).1.right_address.isSome = true
      refine assignRight_resolved (assignLeft cfg lf av).1 rf
        (assignLeft cfg lf av).2.2 ?_ hf
      intro hrf
      rw [(assignLeft_right cfg lf av).1]
      exact hR hrf
  · exact ⟨hL, hR⟩

theorem scanClassify_resolved (env : ScanEnv) (cfg : Config) :
    ((scanClassify env cfg).2.1 = true →
      (scanClassify env cfg).1.left_address.isSome = true) ∧
    ((scanClassify env cfg).2.2 = true →
      (scanClassify env cfg).1.right_address.isSome = true) := by
  have hw := foldWin_resolved env.winDevices (cfg, false, false)
    (by simp) (by simp)
  unfold scanClassify
  simp only []
  split
  · have hs := foldScan_resolved env.devices
      ((env.winDevices.foldl classifyWin (cfg, false, false)).1,
       (env.winDevices.foldl classifyWin (cfg, false, false)).2.1,
       (env.winDevices.foldl classifyWin (cfg, false, false)).2.2, ([] : List Dev))
      hw.1 hw.2
    exact assignLeftovers_resolved _ _ _ _ hs.1 hs.2
  · exact hw

theorem scan_eq (env : ScanEnv) (st : BLE) :
    scan_for_glasses env st =
      if ((scanClassify env st.cfg).2.1 && (scanClassify env st.cfg).2.2) = true then
        { ok := true,
          st := saveCfg { setCState st .scanning with cfg := (scanClassify env st.cfg).1 } }
      else
        { ok := false,
          st := setCState { setCState st .scanning with cfg := (scanClassify env st.cfg).1 }
            .disconnected } := rfl

theorem classifyScan_id_of_skip (acc : Config × Bool × Bool × List Dev) (d : Dev)
    (h : d.name = none ∨ ∃ nm, d.name = some nm ∧
      (nm.isEmpty = true ∨ g1Patterns.any (fun p => strContains nm p) = false)) :
    classifyScan acc d = acc := by
  obtain ⟨cfg, lf, rf, g1⟩ := acc
  rcases h with h | ⟨nm, hn, h⟩
  · simp [classifyScan, h]
  · rcases h with h | h
    · simp [classifyScan, hn, h]
    · by_cases hEmpty : nm.isEmpty
      · simp [classifyScan, hn, hEmpty]
      · simp [classifyScan, hn, hEmpty, h]

theorem foldScan_id (l : List Dev) (acc : Config × Bool × Bool × List Dev)
    (h : ∀ d ∈ l, d.name = none ∨ ∃ nm, d.name = some nm ∧
      (nm.isEmpty = true ∨ g1Patterns.any (fun p => strContains nm p) = false)) :
    l.foldl classifyScan acc = acc := by
  induction l generalizing acc with
  | nil => rfl
  | cons d ds ih =>
    have hd := classifyScan_id_of_skip acc d (h d (List.mem_cons_self d ds))
    simp only [List.foldl_cons, hd]
    exact ih acc fun x hx => h x (List.mem_cons_of_mem d hx)

/-- C5: `scan_for_glasses` returns true only when both sides resolved to an
address, and then the AddressStore is persisted to exactly the final
in-memory config; when no matching peripheral is observed (no
host-enumerated device, and every scanned device unnamed, empty-named or
matching no product pattern), it returns false, sets the global state to
Disconnected, and leaves both the in-memory and the persisted AddressStore
unchanged. -/
theorem scan_contract :
    (∀ env st, (scan_for_glasses env st).ok = true →
      (scan_for_glasses env st).st.cfg.left_address.isSome = true ∧
      (scan_for_glasses env st).st.cfg.right_address.isSome = true ∧
      (scan_for_glasses env st).st.saved = (scan_for_glasses env st).st.cfg) ∧
    (∀ env st, env.winDevices = [] →
      (∀ d ∈ env.devices, d.name = none ∨ ∃ nm, d.name = some nm ∧
        (nm.isEmpty = true ∨ g1Patterns.any (fun p => strContains nm p) = false)) →
      (scan_for_glasses env st).ok = false ∧
      (scan_for_glasses env st).st.connState = .disconnected ∧
      (scan_for_glasses env st).st.cfg = st.cfg ∧
      (scan_for_glasses env st).st.saved = st.saved) := by
  constructor
  · intro env st
    rw [scan_eq]
    by_cases hc : ((scanClassify env st.cfg).2.1 && (scanClassify env st.cfg).2.2) = true
    · rw [if_pos hc]
      intro _
      rw [Bool.and_eq_true] at hc
      have hres := scanClassify_resolved env st.cfg
      exact ⟨hres.1 hc.1, hres.2 hc.2, rfl⟩
    · rw [if_neg hc]
      intro h; cases h
  · intro env st hwin hdev
    have hclass : scanClassify env st.cfg = (st.cfg, false, false) := by
      unfold scanClassify
      rw [hwin]
      simp only [List.foldl_nil]
      rw [foldScan_id env.devices (st.cfg, false, false, ([] : List Dev)) hdev]
      simp [assignLeftovers]
    rw [scan_eq, hclass]
    simp [setCState, saveCfg]

theorem scan_contract_witness :
    (scan_for_glasses envLR (initBLE cfgNone)).ok = true ∧
    (scan_for_glasses envLR (initBLE cfgNone)).st.cfg.left_address.isSome = true ∧
    (scan_for_glasses emptyScan (initBLE cfgAB)).ok = false ∧
    (scan_for_glasses emptyScan (initBLE cfgAB)).st.connState = .disconnected ∧
    (scan_for_glasses emptyScan (initBLE cfgAB)).st.cfg = cfgAB :=
  ⟨by decide,
   (scan_contract.1 envLR (initBLE cfgNone) (by decide)).1,
   (scan_contract.2 emptyScan (initBLE cfgAB) rfl (by decide)).1,
   (scan_contract.2 emptyScan (initBLE cfgAB) rfl (by decide)).2.1,
   (scan_contract.2 emptyScan (initBLE cfgAB) rfl (by decide)).2.2.1⟩

/-! ## Status snapshot (C9) -/

/-- C9 counterexample: an error recorded for the LEFT side (the quality
monitor observing the left handle down) changes the error count and last
error reported for the RIGHT side — from 0 errors to 1 and to "Left glass
disconnected" — although the right handle is untouched: `get_status_data`
reports the single shared manager counters under both sides, not per-side
counters. -/
theorem status_error_not_per_side :
    (get_status_data stQuiet).right.errors = 0 ∧
    (get_status_data (monitorCheckSide stQuiet .left)).right.errors = 1 ∧
    (monitorCheckSide stQuiet .left).right_client = stQuiet.right_client ∧
    (get_status_data (monitorCheckSide stQuiet .left)).right.last_error =
      some "Left glass disconnected" :=
  ⟨rfl, rfl, rfl, rfl⟩

/-- C9 amended: the status snapshot reports each side's own connected flag,
but a single shared error counter and last error shown identically for
both sides; the per-side ConnectionQuality entries are maintained
side-independently by `_update_connection_quality` yet are not read by
`get_status_data` at all. -/
theorem status_snapshot_shape :
    (∀ st, get_status_data st =
      ⟨⟨clientConnected st.left_client, st.error_count, st.last_error⟩,
       ⟨clientConnected st.right_client, st.error_count, st.last_error⟩,
       st.last_heartbeat, st.silent_mode⟩) ∧
    (∀ st rssi e,
      (update_connection_quality st .left rssi e).quality_right = st.quality_right ∧
      (update_connection_quality st .right rssi e).quality_left = st.quality_left ∧
      get_status_data (update_connection_quality st .left rssi e) = get_status_data st ∧
      get_status_data (update_connection_quality st .right rssi e) = get_status_data st) :=
  ⟨fun _ => rfl, fun _ _ _ => ⟨rfl, rfl, rfl, rfl⟩⟩

/-! ## Coordinator frame lemmas -/

theorem scan_fields (env : ScanEnv) (st : BLE) :
    (scan_for_glasses env st).st.left_client = st.left_client ∧
    (scan_for_glasses env st).st.right_client = st.right_client ∧
    (scan_for_glasses env st).st.shutting_down = st.shutting_down := by
  rw [scan_eq]
  split <;> simp [saveCfg, setCState]

theorem glassCall_fields (env : ConnectEnv) (cs : CS) (side : Side) :
    (glassCall env cs side).st.cfg = cs.st.cfg ∧
    (glassCall env cs side).st.saved = cs.st.saved ∧
    (glassCall env cs side).st.trace = cs.st.trace ∧
    (glassCall env cs side).st.connState = cs.st.connState ∧
    (glassCall env cs side).st.shutting_down = cs.st.shutting_down := by
  cases side <;> simp only [glassCall] <;> split <;> simp [setClient]

theorem stage1_frame (env : ConnectEnv) (cs : CS) :
    (stage1 env cs).st.cfg = cs.st.cfg ∧
    (stage1 env cs).st.saved = cs.st.saved ∧
    (stage1 env cs).st.trace = cs.st.trace ∧
    (stage1 env cs).st.connState = cs.st.connState ∧
    (stage1 env cs).st.shutting_down = cs.st.shutting_down := by
  unfold stage1
  split
  · have h1 := glassCall_fields env cs .left
    have h2 := glassCall_fields env (glassCall env cs .left) .right
    exact ⟨h2.1.trans h1.1, h2.2.1.trans h1.2.1, h2.2.2.1.trans h1.2.2.1,
      h2.2.2.2.1.trans h1.2.2.2.1, h2.2.2.2.2.trans h1.2.2.2.2⟩
  · exact ⟨rfl, rfl, rfl, rfl, rfl⟩

theorem stage2_frame (env : ConnectEnv) (cs : CS) :
    (stage2 env cs).st.cfg = cs.st.cfg ∧
    (stage2 env cs).st.saved = cs.st.saved ∧
    (stage2 env cs).st.trace = cs.st.trace ∧
    (stage2 env cs).st.connState = cs.st.connState ∧
    (stage2 env cs).st.shutting_down = cs.st.shutting_down := by
  unfold stage2
  split
  · split
    · have h1 := glassCall_fields env cs .left
      have h2 := glassCall_fields env (glassCall env cs .left) .right
      exact ⟨h2.1.trans h1.1, h2.2.1.trans h1.2.1, h2.2.2.1.trans h1.2.2.1,
        h2.2.2.2.1.trans h1.2.2.2.1, h2.2.2.2.2.trans h1.2.2.2.2⟩
    · exact ⟨rfl, rfl, rfl, rfl, rfl⟩
  · exact ⟨rfl, rfl, rfl, rfl, rfl⟩

theorem stage3_shutdown (env : ConnectEnv) (cs : CS) :
    (stage3 env cs).st.shutting_down = cs.st.shutting_down := by
  unfold stage3
  simp only []
  split
  · split
    · have h1 := glassCall_fields env
        { cs with st := (scan_for_glasses env.scan3 (saveCfg (clearAddrs cs.st))).st } .left
      have h2 := glassCall_fields env (glassCall env
        { cs with st := (scan_for_glasses env.scan3 (saveCfg (clearAddrs cs.st))).st } .left) .right
      rw [h2.2.2.2.2, h1.2.2.2.2]
      show (scan_for_glasses env.scan3 (saveCfg (clearAddrs cs.st))).st.shutting_down =
        cs.st.shutting_down
      rw [(scan_fields env.scan3 (saveCfg (clearAddrs cs.st))).2.2]
      rfl
    · show (scan_for_glasses env.scan3 (saveCfg (clearAddrs cs.st))).st.shutting_down =
        cs.st.shutting_down
      rw [(scan_fields env.scan3 (saveCfg (clearAddrs cs.st))).2.2]
      rfl
  · rfl

theorem stage4Pre_shutdown (cs : CS) :
    (stage4Pre cs).shutting_down = cs.st.shutting_down := by
  simp only [stage4Pre]
  split <;> split <;> simp [saveCfg, clearAddrs]

theorem stage4_shutdown (env : ConnectEnv) (cs : CS) :
    (stage4 env cs).st.shutting_down = cs.st.shutting_down := by
  unfold stage4
  simp only []
  split
  · split
    · have h1 := glassCall_fields env
        { cs with st := (scan_for_glasses env.scan4 (stage4Pre cs)).st } .left
      have h2 := glassCall_fields env (glassCall env
        { cs with st := (scan_for_glasses env.scan4 (stage4Pre cs)).st } .left) .right
      rw [h2.2.2.2.2, h1.2.2.2.2]
      show (scan_for_glasses env.scan4 (stage4Pre cs)).st.shutting_down =
        cs.st.shutting_down
      rw [(scan_fields env.scan4 (stage4Pre cs)).2.2, stage4Pre_shutdown]
    · show (scan_for_glasses env.scan4 (stage4Pre cs)).st.shutting_down =
        cs.st.shutting_down
      rw [(scan_fields env.scan4 (stage4Pre cs)).2.2, stage4Pre_shutdown]
  · rfl

theorem finalEval_shutdown (cs : CS) :
    (finalEval cs).st.shutting_down = cs.st.shutting_down := by
  unfold finalEval
  simp only []
  split
  · rfl
  · split <;> split <;> simp [setCState]

theorem connect_shutdown (st : BLE) (env : ConnectEnv) :
    (connect_to_glasses st env).st.shutting_down = st.shutting_down := by
  unfold connect_to_glasses
  rw [finalEval_shutdown, stage4_shutdown, stage3_shutdown,
    (stage2_frame env _).2.2.2.2, (stage1_frame env _).2.2.2.2]
  rfl

/-! ## Shutdown-flag monotonicity (C10) -/

/-- C10: the shutdown flag starts false, is set to true by `disconnect`,
and is never reset: `connect_to_glasses`, `scan_for_glasses`,
`_handle_disconnect`, the quality-monitor step and
`_update_connection_quality` all preserve it, and `reconnect` always ends
with it true; consequently, with the flag set, `_handle_disconnect`
returns immediately with zero reconnect attempts and the quality-monitor
loop exits at its first check. -/
theorem shutdown_flag_monotone :
    (∀ cfg, (initBLE cfg).shutting_down = false) ∧
    (∀ st, (disconnect st).shutting_down = true) ∧
    (∀ st env, (connect_to_glasses st env).st.shutting_down = st.shutting_down) ∧
    (∀ env st, (scan_for_glasses env st).st.shutting_down = st.shutting_down) ∧
    (∀ st env, (reconnect st env).st.shutting_down = true) ∧
    (∀ st side N outs,
      (handle_disconnect st side N outs).st.shutting_down = st.shutting_down) ∧
    (∀ st side, (monitorCheckSide st side).shutting_down = st.shutting_down) ∧
    (∀ st side rssi e,
      (update_connection_quality st side rssi e).shutting_down = st.shutting_down) ∧
    (∀ st side N outs, st.shutting_down = true →
      handle_disconnect st side N outs = ⟨false, st, 0⟩) ∧
    (∀ st fuel, st.shutting_down = true → monitorRun st fuel = (st, 0)) := by
  refine ⟨fun _ => rfl, fun st => rfl, connect_shutdown,
    fun env st => (scan_fields env st).2.2, ?_, ?_, ?_, ?_, ?_, ?_⟩
  · intro st env
    rw [reconnect, connect_shutdown]
    rfl
  · intro st side N outs
    unfold handle_disconnect
    split
    · rfl
    · simp
  · intro st side
    unfold monitorCheckSide
    split
    · split <;> rfl
    · rfl
  · intro st side rssi e
    cases side <;> rfl
  · intro st side N outs h
    simp [handle_disconnect, h]
  · intro st fuel h
    cases fuel <;> simp [monitorRun, h]

theorem shutdown_flag_monotone_witness :
    handle_disconnect stShut Side.right 2 (fun _ _ => .opened true true true) =
      ⟨false, stShut, 0⟩ ∧
    monitorRun stShut 5 = (stShut, 0) :=
  ⟨shutdown_flag_monotone.2.2.2.2.2.2.2.2.1 stShut Side.right 2
    (fun _ _ => .opened true true true) rfl,
   shutdown_flag_monotone.2.2.2.2.2.2.2.2.2 stShut 5 rfl⟩

/-! ## Address restoration (C6) -/

theorem glassLoop_fail (N : Nat) (out : Nat → AttemptOutcome)
    (h : ∀ i, attemptSucceeds (out i) = false) :
    ∀ rem i, (glassLoop N out i rem).ok = false := by
  intro rem
  induction rem with
  | zero => intro i; simp [glassLoop]
  | succ n ih =>
    intro i
    simp only [glassLoop, h i]
    simpa using ih (i + 1)

theorem connect_glass_fail (addr : Option String) (N : Nat)
    (out : Nat → AttemptOutcome) (h : ∀ i, attemptSucceeds (out i) = false) :
    (connect_glass addr N out).ok = false := by
  cases addr with
  | none => rfl
  | some a => exact glassLoop_fail N out h N 0

theorem glassCalls_fail_flags (env : ConnectEnv) (cs : CS)
    (hfail : ∀ k i, attemptSucceeds (env.glassOuts k i) = false) :
    (glassCall env (glassCall env cs .left) .right).l = false ∧
    (glassCall env (glassCall env cs .left) .right).r = false := by
  constructor
  · show (glassCall env cs .left).l = false
    simp [glassCall, connect_glass_fail _ _ _ (hfail cs.k)]
  · simp [glassCall, connect_glass_fail _ _ _ (hfail (cs.k + 1))]

theorem stage1_fail_flags (env : ConnectEnv) (cs : CS)
    (hfail : ∀ k i, attemptSucceeds (env.glassOuts k i) = false)
    (hl : cs.l = false) (hr : cs.r = false) :
    (stage1 env cs).l = false ∧ (stage1 env cs).r = false := by
  unfold stage1
  split
  · exact glassCalls_fail_flags env cs hfail
  · exact ⟨hl, hr⟩

theorem stage2_fail_flags (env : ConnectEnv) (cs : CS)
    (hfail : ∀ k i, attemptSucceeds (env.glassOuts k i) = false)
    (hl : cs.l = false) (hr : cs.r = false) :
    (stage2 env cs).l = false ∧ (stage2 env cs).r = false := by
  unfold stage2
  split
  · split
    · exact glassCalls_fail_flags env cs hfail
    · exact ⟨hl, hr⟩
  · exact ⟨hl, hr⟩

theorem scan_ok_cfg (env : ScanEnv) (st : BLE) :
    (scan_for_glasses env st).ok =
      ((scanClassify env st.cfg).2.1 && (scanClassify env st.cfg).2.2) := by
  rw [scan_eq]
  split
  case isTrue h => exact h.symm
  case isFalse h =>
    simp only [Bool.not_eq_true] at h
    exact h.symm

theorem scan_fail_saved (env : ScanEnv) (st : BLE)
    (h : (scan_for_glasses env st).ok = false) :
    (scan_for_glasses env st).st.saved = st.saved := by
  rw [scan_ok_cfg] at h
  rw [scan_eq, if_neg]
  · simp [setCState, saveCfg]
  · simp [h]

theorem stage3_scanfail (env : ConnectEnv) (cs : CS)
    (hl : cs.l = false) (hr : cs.r = false)
    (hscan : (scan_for_glasses env.scan3 (saveCfg (clearAddrs cs.st))).ok = false) :
    (stage3 env cs).st.cfg.left_address = cs.st.cfg.left_address ∧
    (stage3 env cs).st.cfg.right_address = cs.st.cfg.right_address ∧
    (stage3 env cs).st.saved =
      (saveCfg (clearAddrs cs.st)).saved ∧
    (stage3 env cs).l = false ∧ (stage3 env cs).r = false := by
  unfold stage3
  simp only []
  rw [if_pos (by simp [hl, hr]), if_neg (by simp [hscan])]
  refine ⟨rfl, rfl, ?_, hl, hr⟩
  show (scan_for_glasses env.scan3 (saveCfg (clearAddrs cs.st))).st.saved = _
  exact scan_fail_saved env.scan3 _ hscan

theorem stage4_skip (env : ConnectEnv) (cs : CS) (h : cs.l = cs.r) :
    stage4 env cs = cs := by
  unfold stage4
  rw [if_neg]
  simp [h]

theorem finalEval_false (cs : CS) (hl : cs.l = false) :
    (finalEval cs).ok = false ∧
    (finalEval cs).st.cfg = cs.st.cfg ∧
    (finalEval cs).st.saved = cs.st.saved := by
  unfold finalEval
  simp only []
  rw [if_neg (by simp [hl])]
  refine ⟨rfl, ?_, ?_⟩ <;> split <;> split <;> simp [setCState]

/-- C6 counterexample: starting with both addresses stored ("A"/"B"),
strategy 1 connects only the left side, every later attempt fails and the
strategy-4 rescan finds nothing: `connect_to_glasses` returns with both
stored addresses cleared to `none` — the pair in the AddressStore before
the strategy-4 clearing is lost, not restored. -/
theorem strategy4_loses_addresses :
    (initBLE cfgAB).cfg.left_address = some "A" ∧
    (initBLE cfgAB).cfg.right_address = some "B" ∧
    (connect_to_glasses (initBLE cfgAB) envS4).st.cfg.left_address = none ∧
    (connect_to_glasses (initBLE cfgAB) envS4).st.cfg.right_address = none :=
  ⟨rfl, rfl, by decide, by decide⟩

/-- C6 amended: only Strategy 3 restores. When strategies 1 and 2 fail on
every attempt and the Strategy-3 Discovery run fails, the in-memory
AddressStore still holds the same pair of addresses after
`connect_to_glasses` returns as it did at the clearing point (the values
after Strategy 0), while the persisted copy keeps the cleared values; the
Strategy-4 clearing (shown by the counterexample) is never restored. -/
theorem strategy3_restores_addresses (st : BLE) (env : ConnectEnv)
    (hfail : ∀ k i, attemptSucceeds (env.glassOuts k i) = false)
    (hscan : (scan_for_glasses env.scan3
      (saveCfg (clearAddrs { setCState st .connecting with
        cfg := strategy0 st.cfg }))).ok = false) :
    (connect_to_glasses st env).ok = false ∧
    (connect_to_glasses st env).st.cfg.left_address = (strategy0 st.cfg).left_address ∧
    (connect_to_glasses st env).st.cfg.right_address = (strategy0 st.cfg).right_address ∧
    (connect_to_glasses st env).st.saved.left_address = none ∧
    (connect_to_glasses st env).st.saved.right_address = none := by
  unfold connect_to_glasses
  simp only []
  have h0 : ({ setCState st .connecting with cfg := strategy0 (setCState st .connecting).cfg } : BLE) =
      { setCState st .connecting with cfg := strategy0 st.cfg } := rfl
  rw [h0]
  set cs0 : CS := ⟨{ setCState st .connecting with cfg := strategy0 st.cfg }, false, false, 0⟩
    with hcs0
  have hfr1 := stage1_frame env cs0
  have hfr2 := stage2_frame env (stage1 env cs0)
  have hcfg : (stage2 env (stage1 env cs0)).st.cfg = cs0.st.cfg := hfr2.1.trans hfr1.1
  have hfl1 := stage1_fail_flags env cs0 hfail rfl rfl
  have hfl2 := stage2_fail_flags env (stage1 env cs0) hfail hfl1.1 hfl1.2
  have hscan2 : (scan_for_glasses env.scan3
      (saveCfg (clearAddrs (stage2 env (stage1 env cs0)).st))).ok = false := by
    rw [scan_ok_cfg] at hscan ⊢
    have hceq : (saveCfg (clearAddrs (stage2 env (stage1 env cs0)).st)).cfg =
        (saveCfg (clearAddrs cs0.st)).cfg := by
      show ({ (stage2 env (stage1 env cs0)).st.cfg with
          left_address := none, right_address := none } : Config) =
        { cs0.st.cfg with left_address := none, right_address := none }
      rw [hcfg]
    rw [hceq]
    exact hscan
  have h3 := stage3_scanfail env (stage2 env (stage1 env cs0)) hfl2.1 hfl2.2 hscan2
  have h4 := stage4_skip env (stage3 env (stage2 env (stage1 env cs0)))
    (h3.2.2.2.1.trans h3.2.2.2.2.symm)
  rw [h4]
  have h5 := finalEval_false (stage3 env (stage2 env (stage1 env cs0))) h3.2.2.2.1
  refine ⟨h5.1, ?_, ?_, ?_, ?_⟩
  · rw [h5.2.1, h3.1, hcfg]
  · rw [h5.2.1, h3.2.1, hcfg]
  · rw [h5.2.2, h3.2.2.1]
    rfl
  · rw [h5.2.2, h3.2.2.1]
    rfl

theorem strategy3_restores_addresses_witness :
    (connect_to_glasses (initBLE cfgAB) envAllFail).ok = false ∧
    (connect_to_glasses (initBLE cfgAB) envAllFail).st.cfg.left_address = some "A" ∧
    (connect_to_glasses (initBLE cfgAB) envAllFail).st.cfg.right_address = some "B" :=
  ⟨(strategy3_restores_addresses (initBLE cfgAB) envAllFail
      (fun _ _ => rfl) (by decide)).1,
   ((strategy3_restores_addresses (initBLE cfgAB) envAllFail
      (fun _ _ => rfl) (by decide)).2.1).trans (by decide),
   ((strategy3_restores_addresses (initBLE cfgAB) envAllFail
      (fun _ _ => rfl) (by decide)).2.2.1).trans (by decide)⟩

/-! ## State-machine traces (C2) -/

theorem okTrace_cons (s x : ConnState) (xs : List ConnState) :
    okTrace s (x :: xs) = (codeAllowed s x && okTrace x xs) := rfl

theorem codeAllowed_into_connecting (s : ConnState) :
    codeAllowed s .connecting = true := by
  cases s <;> rfl

theorem codeAllowed_into_scanning (s : ConnState) :
    codeAllowed s .scanning = true := by
  cases s <;> rfl

theorem codeAllowed_into_disconnected (s : ConnState) :
    codeAllowed s .disconnected = true := by
  cases s <;> rfl

theorem okTrace_start (s : ConnState) (rest : List ConnState)
    (hrest : okTrace .connecting rest = true) :
    okTrace s (.connecting :: rest) = true := by
  rw [okTrace_cons, codeAllowed_into_connecting s, hrest]
  rfl

theorem bne_and_eq_false (a b : Bool) (h : (a != b) = true) : (a && b) = false := by
  cases a <;> cases b <;> simp_all

theorem scan_trace_shape (env : ScanEnv) (st : BLE) :
    ((scan_for_glasses env st).ok = true →
      (scan_for_glasses env st).st.trace = st.trace ++ [ConnState.scanning] ∧
      (scan_for_glasses env st).st.connState = .scanning) ∧
    ((scan_for_glasses env st).ok = false →
      (scan_for_glasses env st).st.trace =
        st.trace ++ [ConnState.scanning, ConnState.disconnected] ∧
      (scan_for_glasses env st).st.connState = .disconnected) := by
  rw [scan_eq]
  split <;> constructor <;> intro h <;> simp_all [setCState, saveCfg]

theorem stage4Pre_frame (cs : CS) :
    (stage4Pre cs).trace = cs.st.trace ∧ (stage4Pre cs).connState = cs.st.connState := by
  simp only [stage4Pre]
  split <;> split <;> simp [saveCfg, clearAddrs]

theorem stage3_shape (env : ConnectEnv) (cs : CS) :
    stage3 env cs = cs ∨
    ((stage3 env cs).st.trace = cs.st.trace ++ [ConnState.scanning] ∧
     (stage3 env cs).st.connState = .scanning) ∨
    ((stage3 env cs).st.trace =
        cs.st.trace ++ [ConnState.scanning, ConnState.disconnected] ∧
     (stage3 env cs).st.connState = .disconnected ∧
     (stage3 env cs).l = false ∧ (stage3 env cs).r = false) := by
  unfold stage3
  simp only []
  split
  case isTrue hg =>
    rw [Bool.and_eq_true, Bool.not_eq_true', Bool.not_eq_true'] at hg
    split
    case isTrue hok =>
      right; left
      have hsh := (scan_trace_shape env.scan3 (saveCfg (clearAddrs cs.st))).1 hok
      have g1 := glassCall_fields env
        ⟨(scan_for_glasses env.scan3 (saveCfg (clearAddrs cs.st))).st, cs.l, cs.r, cs.k⟩ .left
      have g2 := glassCall_fields env (glassCall env
        ⟨(scan_for_glasses env.scan3 (saveCfg (clearAddrs cs.st))).st, cs.l, cs.r, cs.k⟩
        .left) .right
      constructor
      · rw [g2.2.2.1, g1.2.2.1]
        exact hsh.1
      · rw [g2.2.2.2.1, g1.2.2.2.1]
        exact hsh.2
    case isFalse hok =>
      right; right
      have hok' : (scan_for_glasses env.scan3 (saveCfg (clearAddrs cs.st))).ok = false := by
        simpa using hok
      have hsh := (scan_trace_shape env.scan3 (saveCfg (clearAddrs cs.st))).2 hok'
      exact ⟨hsh.1, hsh.2, hg.1, hg.2⟩
  case isFalse => left; rfl

theorem stage4_shape (env : ConnectEnv) (cs : CS) :
    stage4 env cs = cs ∨
    ((stage4 env cs).st.trace = cs.st.trace ++ [ConnState.scanning] ∧
     (stage4 env cs).st.connState = .scanning) ∨
    ((stage4 env cs).st.trace =
        cs.st.trace ++ [ConnState.scanning, ConnState.disconnected] ∧
     (stage4 env cs).st.connState = .disconnected ∧
     (stage4 env cs).l = cs.l ∧ (stage4 env cs).r = cs.r ∧ (cs.l != cs.r) = true) := by
  unfold stage4
  simp only []
  split
  case isTrue hg =>
    split
    case isTrue hok =>
      right; left
      have hsh := (scan_trace_shape env.scan4 (stage4Pre cs)).1 hok
      have hpre := stage4Pre_frame cs
      have g1 := glassCall_fields env
        ⟨(scan_for_glasses env.scan4 (stage4Pre cs)).st, cs.l, cs.r, cs.k⟩ .left
      have g2 := glassCall_fields env (glassCall env
        ⟨(scan_for_glasses env.scan4 (stage4Pre cs)).st, cs.l, cs.r, cs.k⟩ .left) .right
      constructor
      · rw [g2.2.2.1, g1.2.2.1, hsh.1, hpre.1]
      · rw [g2.2.2.2.1, g1.2.2.2.1]
        exact hsh.2
    case isFalse hok =>
      right; right
      have hok' : (scan_for_glasses env.scan4 (stage4Pre cs)).ok = false := by
        simpa using hok
      have hsh := (scan_trace_shape env.scan4 (stage4Pre cs)).2 hok'
      have hpre := stage4Pre_frame cs
      refine ⟨?_, hsh.2, rfl, rfl, hg⟩
      rw [hsh.1, hpre.1]
  case isFalse => left; rfl

theorem finalEval_shape (cs : CS) :
    ((cs.l && cs.r) = true →
      (finalEval cs).ok = true ∧
      (finalEval cs).st.trace = cs.st.trace ++ [ConnState.connected]) ∧
    ((cs.l && cs.r) = false →
      (finalEval cs).ok = false ∧
      (finalEval cs).st.trace = cs.st.trace ++ [ConnState.disconnected]) := by
  unfold finalEval
  simp only []
  constructor <;> intro h
  · rw [if_pos h]
    exact ⟨rfl, rfl⟩
  · rw [if_neg (by simp [h])]
    refine ⟨rfl, ?_⟩
    split <;> split <;> simp [setCState]

/-- Every `connect_to_glasses` run, from any initial state, only appends
trace segments whose every step is in `codeAllowed`. -/
theorem connect_trace_ok (st : BLE) (env : ConnectEnv) :
    ∃ tr, (connect_to_glasses st env).st.trace = st.trace ++ tr ∧
      okTrace st.connState tr = true := by
  unfold connect_to_glasses
  simp only []
  set cs0 : CS :=
    ⟨{ setCState st .connecting with cfg := strategy0 (setCState st .connecting).cfg },
      false, false, 0⟩ with hcs0
  set cs2 : CS := stage2 env (stage1 env cs0) with hcs2
  have hf1 := stage1_frame env cs0
  have hf2 := stage2_frame env (stage1 env cs0)
  have hT : cs2.st.trace = st.trace ++ [ConnState.connecting] := by
    rw [hcs2, hf2.2.2.1, hf1.2.2.1]
    simp [hcs0, setCState]
  have hC : cs2.st.connState = .connecting := by
    rw [hcs2, hf2.2.2.2.1, hf1.2.2.2.1]
    simp [hcs0, setCState]
  rcases stage3_shape env cs2 with h3 | ⟨h3t, h3c⟩ | ⟨h3t, h3c, h3l, h3r⟩
  · rw [h3]
    rcases stage4_shape env cs2 with h4 | ⟨h4t, h4c⟩ | ⟨h4t, h4c, h4l, h4r, h4x⟩
    · rw [h4]
      by_cases hf : (cs2.l && cs2.r) = true
      · refine ⟨[.connecting, .connected], ?_, okTrace_start _ _ (by decide)⟩
        rw [((finalEval_shape cs2).1 hf).2, hT]
        simp
      · refine ⟨[.connecting, .disconnected], ?_, okTrace_start _ _ (by decide)⟩
        rw [((finalEval_shape cs2).2 (by simpa using hf)).2, hT]
        simp
    · by_cases hf : ((stage4 env cs2).l && (stage4 env cs2).r) = true
      · refine ⟨[.connecting, .scanning, .connected], ?_,
          okTrace_start _ _ (by decide)⟩
        rw [((finalEval_shape (stage4 env cs2)).1 hf).2, h4t, hT]
        simp
      · refine ⟨[.connecting, .scanning, .disconnected], ?_,
          okTrace_start _ _ (by decide)⟩
        rw [((finalEval_shape (stage4 env cs2)).2 (by simpa using hf)).2, h4t, hT]
        simp
    · have hf : ((stage4 env cs2).l && (stage4 env cs2).r) = false := by
        rw [h4l, h4r]
        exact bne_and_eq_false _ _ h4x
      refine ⟨[.connecting, .scanning, .disconnected, .disconnected], ?_,
        okTrace_start _ _ (by decide)⟩
      rw [((finalEval_shape (stage4 env cs2)).2 hf).2, h4t, hT]
      simp
  · rcases stage4_shape env (stage3 env cs2) with h4 | ⟨h4t, h4c⟩ | ⟨h4t, h4c, h4l, h4r, h4x⟩
    · rw [h4]
      by_cases hf : ((stage3 env cs2).l && (stage3 env cs2).r) = true
      · refine ⟨[.connecting, .scanning, .connected], ?_,
          okTrace_start _ _ (by decide)⟩
        rw [((finalEval_shape (stage3 env cs2)).1 hf).2, h3t, hT]
        simp
      · refine ⟨[.connecting, .scanning, .disconnected], ?_,
          okTrace_start _ _ (by decide)⟩
        rw [((finalEval_shape (stage3 env cs2)).2 (by simpa using hf)).2, h3t, hT]
        simp
    · by_cases hf : ((stage4 env (stage3 env cs2)).l && (stage4 env (stage3 env cs2)).r) = true
      · refine ⟨[.connecting, .scanning, .scanning, .connected], ?_,
          okTrace_start _ _ (by decide)⟩
        rw [((finalEval_shape (stage4 env (stage3 env cs2))).1 hf).2, h4t, h3t, hT]
        simp
      · refine ⟨[.connecting, .scanning, .scanning, .disconnected], ?_,
          okTrace_start _ _ (by decide)⟩
        rw [((finalEval_shape (stage4 env (stage3 env cs2))).2 (by simpa using hf)).2,
          h4t, h3t, hT]
        simp
    · have hf : ((stage4 env (stage3 env cs2)).l && (stage4 env (stage3 env cs2)).r) = false := by
        rw [h4l, h4r]
        exact bne_and_eq_false _ _ h4x
      refine ⟨[.connecting, .scanning, .scanning, .disconnected, .disconnected], ?_,
        okTrace_start _ _ (by decide)⟩
      rw [((finalEval_shape (stage4 env (stage3 env cs2))).2 hf).2, h4t, h3t, hT]
      simp
  · have h4 := stage4_skip env (stage3 env cs2) (h3l.trans h3r.symm)
    rw [h4]
    have hf : ((stage3 env cs2).l && (stage3 env cs2).r) = false := by
      rw [h3l]
      rfl
    refine ⟨[.connecting, .scanning, .disconnected, .disconnected], ?_,
      okTrace_start _ _ (by decide)⟩
    rw [((finalEval_shape (stage3 env cs2)).2 hf).2, h3t, hT]
    simp

/-- C2 counterexample: invoked right after a successful scan (state
Scanning), with strategies 1-2 failing and the strategy-3 rescan resolving
and connecting both sides, `connect_to_glasses` writes Connecting, then
Scanning, then Connected — so the run makes the transition
Connecting → Scanning (and then Scanning → Connected), which the claimed
relation Disconnected → Scanning → Connecting → Connected (+ any →
Disconnected) forbids. -/
theorem connecting_to_scanning_transition :
    stepsOf stScan.connState (connect_to_glasses stScan envC2).st.trace =
      [(.scanning, .connecting), (.connecting, .scanning), (.scanning, .connected)] ∧
    specAllowed .connecting .scanning = false ∧
    specAllowed .scanning .connected = false :=
  ⟨by decide, rfl, rfl⟩

/-- C2 amended: within the modelled component only these operations call
the state setter, and every execution of `scan_for_glasses`,
`connect_to_glasses`, `disconnect` and `reconnect`, from any initial
state, takes only transitions in the relation: Disconnected → Scanning,
Scanning → Connecting, Connecting → Connected, anything → Disconnected,
plus stutters and the transitions the claim misses — Disconnected →
Connecting (direct connect from saved addresses), Connecting → Scanning
(strategy-3/4 rescans), Scanning → Connected (success straight after an
in-connect rescan), and Connected → Connecting / Connected → Scanning
(the writes at bluetooth.py lines 139 and 35 are unguarded, so both
operations re-enter the machine when invoked while Connected).  A direct
Disconnected → Connected transition never occurs. -/
theorem state_transition_relation :
    (∀ env st, st.trace = [] →
      okTrace st.connState (scan_for_glasses env st).st.trace = true) ∧
    (∀ st env, st.trace = [] →
      okTrace st.connState (connect_to_glasses st env).st.trace = true) ∧
    (∀ st, st.trace = [] → okTrace st.connState (disconnect st).trace = true) ∧
    (∀ st env, st.trace = [] →
      okTrace st.connState (reconnect st env).st.trace = true) := by
  refine ⟨?_, ?_, ?_, ?_⟩
  · intro env st ht
    by_cases hok : (scan_for_glasses env st).ok = true
    · have hsh := (scan_trace_shape env st).1 hok
      rw [hsh.1, ht]
      simp [okTrace_cons, codeAllowed_into_scanning st.connState, okTrace]
    · have hsh := (scan_trace_shape env st).2 (by simpa using hok)
      rw [hsh.1, ht]
      simp only [List.nil_append, okTrace_cons,
        codeAllowed_into_scanning st.connState, Bool.true_and]
      decide
  · intro st env ht
    obtain ⟨tr, htr, hok⟩ := connect_trace_ok st env
    rw [htr, ht]
    simpa using hok
  · intro st ht
    show okTrace st.connState (st.trace ++ [ConnState.disconnected]) = true
    rw [ht]
    simp only [List.nil_append, okTrace_cons, codeAllowed_into_disconnected,
      Bool.true_and]
    rfl
  · intro st env ht
    unfold reconnect
    obtain ⟨tr, htr, hok⟩ := connect_trace_ok (disconnect st) env
    rw [htr]
    show okTrace st.connState (st.trace ++ [ConnState.disconnected] ++ tr) = true
    rw [ht]
    simp only [List.nil_append, List.cons_append, okTrace_cons,
      codeAllowed_into_disconnected, Bool.true_and]
    have : (disconnect st).connState = .disconnected := rfl
    rw [this] at hok
    simpa using hok

theorem state_transition_relation_witness :
    okTrace (initBLE cfgAB).connState
      (scan_for_glasses emptyScan (initBLE cfgAB)).st.trace = true ∧
    okTrace (initBLE cfgAB).connState
      (connect_to_glasses (initBLE cfgAB) envOK).st.trace = true ∧
    okTrace (initBLE cfgAB).connState (disconnect (initBLE cfgAB)).trace = true ∧
    okTrace (initBLE cfgAB).connState
      (reconnect (initBLE cfgAB) envOK).st.trace = true :=
  ⟨state_transition_relation.1 emptyScan (initBLE cfgAB) rfl,
   state_transition_relation.2.1 (initBLE cfgAB) envOK rfl,
   state_transition_relation.2.2.1 (initBLE cfgAB) rfl,
   state_transition_relation.2.2.2 (initBLE cfgAB) envOK rfl⟩

/-! ## Both-or-neither connected (C1) -/

end EvenBook
